import Mathlib

/-!
Shallow embedding of the restock-monitor core (src/monitor.ts, src/state.ts,
src/notifiers.ts) and proofs about its per-target state machine, probe engine,
notification fan-out and state persistence.

Modelling conventions:
* TypeScript numbers holding epoch seconds, streak counters and config values
  are embedded as `Int` (all arithmetic involved stays in integer range).
* Network effects (`fetch`, `notifier.send`, `JSON.parse`, the KV store) are
  embedded as explicit oracle parameters, so every function is pure and
  executable; per run each URL is fetched at most twice, so a fetch behaviour
  assigns to each URL the result of its first read and of its confirm read.
* `RegExp.test` is a platform primitive; each compiled pattern is embedded as
  an opaque `String → Bool` predicate, exactly the interface the source uses.
* An object key-value store (the JS `state` object) is embedded as an
  association list with JS assignment semantics (`setEntry`).
-/

namespace RestockMonitor

/-- `'OUT' | 'IN'` — the persisted status field of `TargetState` (types.ts). -/
inductive StockStatus where
  | OUT
  | IN
deriving DecidableEq, Repr

/-- `'OUT' | 'IN' | 'ERROR'` — the status field of `ProbeResult` (types.ts). -/
inductive ProbeStatus where
  | OUT
  | IN
  | ERROR
deriving DecidableEq, Repr

/-- `TargetState` from types.ts: the per-target persisted record. -/
structure TargetState where
  status : StockStatus
  inSinceTs : Int
  inStreak : Int
  errStreak : Int
  lastErrNotifyTs : Int
  lastInNotifyAttemptTs : Int
  lastInNotifyOkTs : Int
  lastUsedUrl : Option String
  lastReason : String
  ts : Int
deriving DecidableEq, Repr

/-- The zero-valued default target state synthesized in `runCheck`
(monitor.ts lines 385-397). -/
def defaultTargetState : TargetState :=
  { status := .OUT
    inSinceTs := 0
    inStreak := 0
    errStreak := 0
    lastErrNotifyTs := 0
    lastInNotifyAttemptTs := 0
    lastInNotifyOkTs := 0
    lastUsedUrl := none
    lastReason := ""
    ts := 0 }

/-- `ProbeResult` from types.ts. -/
structure ProbeResult where
  ok : Bool
  status : ProbeStatus
  usedUrl : Option String
  reason : String
deriving DecidableEq, Repr

/-- The three clamped numeric tunables read at the top of `runCheck`
(monitor.ts lines 377-379). -/
structure CheckConfig where
  inConfirmationsRequired : Int
  errorStreakNotifyThreshold : Int
  errorNotifyCooldownSec : Int
deriving DecidableEq, Repr

/-- Result of one iteration of the `runCheck` target loop: the stored state,
the change strings pushed onto `changes`, and how many restock / error
`notifyAll` calls the iteration performed. -/
structure StepResult where
  state : TargetState
  changes : List String
  restockAlerts : Nat
  errorAlerts : Nat
deriving DecidableEq, Repr

/-- JS template interpolation of `result.usedUrl` (a `string | null`):
`null` prints as "null". -/
def showUrl : Option String → String
  | some u => u
  | none => "null"

/-- One iteration of the target loop of `runCheck` (monitor.ts lines 399-492),
for a single target named `name` with prior (default-merged) state `prior` and
probe outcome `result`.  `numNotifiers` is `notifiers.length`; `notifySent` is
the `sent` field of the `notifyAll` result for the (at most one) notification
call this iteration makes. -/
def runTargetStep (cfg : CheckConfig) (numNotifiers : Nat) (notifySent : Nat)
    (name : String) (prior : TargetState) (result : ProbeResult) (now : Int) :
    StepResult :=
  match result.status with
  | .ERROR =>
      -- lines 411-439: errStreak += 1; threshold+cooldown gate the alert
      let errStreak := prior.errStreak + 1
      if errStreak ≥ cfg.errorStreakNotifyThreshold ∧
          now - prior.lastErrNotifyTs ≥ cfg.errorNotifyCooldownSec then
        { state :=
            { prior with
              errStreak := errStreak
              lastErrNotifyTs := if notifySent > 0 then now else prior.lastErrNotifyTs
              lastUsedUrl := result.usedUrl
              lastReason := result.reason
              ts := now }
          changes := []
          restockAlerts := 0
          errorAlerts := 1 }
      else
        { state :=
            { prior with
              errStreak := errStreak
              lastUsedUrl := result.usedUrl
              lastReason := result.reason
              ts := now }
          changes := []
          restockAlerts := 0
          errorAlerts := 0 }
  | .OUT =>
      -- lines 442-450: errStreak = 0; inStreak = 0; change event iff prior IN
      { state :=
          { prior with
            status := .OUT
            inSinceTs := 0
            inStreak := 0
            errStreak := 0
            lastUsedUrl := result.usedUrl
            lastReason := result.reason
            ts := now }
        changes :=
          if prior.status ≠ .OUT then
            [name ++ ": IN -> OUT (" ++ showUrl result.usedUrl ++ ")"]
          else []
        restockAlerts := 0
        errorAlerts := 0 }
  | .IN =>
      match prior.status with
      | .OUT =>
          -- lines 452-464: accumulate the confirmation streak
          let inStreak := prior.inStreak + 1
          if inStreak ≥ cfg.inConfirmationsRequired then
            { state :=
                { prior with
                  status := .IN
                  inSinceTs := now
                  inStreak := inStreak
                  errStreak := 0
                  lastInNotifyAttemptTs := now
                  lastInNotifyOkTs := if notifySent > 0 then now else prior.lastInNotifyOkTs
                  lastUsedUrl := result.usedUrl
                  lastReason := result.reason
                  ts := now }
              changes := [name ++ ": OUT -> IN (" ++ showUrl result.usedUrl ++ ")"]
              restockAlerts := 1
              errorAlerts := 0 }
          else
            { state :=
                { prior with
                  inStreak := inStreak
                  errStreak := 0
                  lastUsedUrl := result.usedUrl
                  lastReason := result.reason
                  ts := now }
              changes := []
              restockAlerts := 0
              errorAlerts := 0 }
      | .IN =>
          -- lines 465-478: stay IN; retry the restock alert until one succeeds
          let inStreak := max prior.inStreak cfg.inConfirmationsRequired
          if numNotifiers > 0 ∧ prior.lastInNotifyOkTs < prior.inSinceTs then
            { state :=
                { prior with
                  status := .IN
                  inStreak := inStreak
                  errStreak := 0
                  lastInNotifyAttemptTs := now
                  lastInNotifyOkTs := if notifySent > 0 then now else prior.lastInNotifyOkTs
                  lastUsedUrl := result.usedUrl
                  lastReason := result.reason
                  ts := now }
              changes := []
              restockAlerts := 1
              errorAlerts := 0 }
          else
            { state :=
                { prior with
                  status := .IN
                  inStreak := inStreak
                  errStreak := 0
                  lastUsedUrl := result.usedUrl
                  lastReason := result.reason
                  ts := now }
              changes := []
              restockAlerts := 0
              errorAlerts := 0 }

/-- The `state` object of runCheck, keyed by target name (types.ts `State`). -/
abbrev StateMap := List (String × TargetState)

/-- JS object assignment `state[name] = v`: replace the value of an existing
key in place, otherwise append the new key. -/
def setEntry (m : StateMap) (k : String) (v : TargetState) : StateMap :=
  match m with
  | [] => [(k, v)]
  | (k', v') :: rest => if k' = k then (k, v) :: rest else (k', v') :: setEntry rest k v

/-- The whole of `runCheck` after state load (monitor.ts lines 381-495), over
the list of target names: iterate the target loop, writing each target's new
state into the map, and return the map that `saveState` persists together with
the accumulated `changes` list.  `probe` and `notifySentOf` are the per-target
probe and notification oracles. -/
def runCheckState (cfg : CheckConfig) (numNotifiers : Nat)
    (probe : String → ProbeResult) (notifySentOf : String → Nat) (now : Int) :
    List String → StateMap → StateMap × List String
  | [], state => (state, [])
  | name :: rest, state =>
      let prior := (state.lookup name).getD defaultTargetState
      let r := runTargetStep cfg numNotifiers (notifySentOf name) name prior (probe name) now
      let out := runCheckState cfg numNotifiers probe notifySentOf now rest (setEntry state name r.state)
      (out.1, r.changes ++ out.2)

/-- One scheduled run applied to a single target, as seen across successive
invocations of `runCheck`: the probe outcome, the `sent` count of the
notification call (if one is made), and the run's clock. -/
structure RunInput where
  result : ProbeResult
  notifySent : Nat
  now : Int

/-- A sequence of `runCheck` iterations for one target (the same target-loop
body applied run after run to the persisted state), returning the final state
and the total number of restock-alert `notifyAll` calls made over the runs. -/
def runTargetSeq (cfg : CheckConfig) (numNotifiers : Nat) (name : String) :
    TargetState → List RunInput → TargetState × Nat
  | prior, [] => (prior, 0)
  | prior, i :: rest =>
      let r := runTargetStep cfg numNotifiers i.notifySent name prior i.result i.now
      let out := runTargetSeq cfg numNotifiers name r.state rest
      (out.1, r.restockAlerts + out.2)

/-! ## Probe engine (monitor.ts lines 249-341) -/

/-- Boolean substring test on character lists (JS `String.prototype.includes`). -/
def containsSub (needle : List Char) (hay : List Char) : Bool :=
  match hay with
  | [] => needle.isEmpty
  | _ :: t => needle.isPrefixOf hay || containsSub needle t

/-- JS `String.prototype.toLowerCase`, embedded as character-wise lowering of
the string's character list. -/
def lowerChars (s : String) : List Char :=
  s.toList.map Char.toLower

/-- `sanityOk` (monitor.ts lines 249-252): the lowercased body must contain at
least one lowercased marker. -/
def sanityOk (html : String) (mustContainAny : List String) : Bool :=
  mustContainAny.any fun keyword =>
    containsSub (lowerChars keyword) (lowerChars html)

/-- `matchAnyRegex` (monitor.ts lines 257-259); each compiled `RegExp` is
embedded as its `test` predicate. -/
def matchAnyRegex (html : String) (patterns : List (String → Bool)) : Bool :=
  patterns.any fun pattern => pattern html

/-- Target descriptor (types.ts `Target`), with each out-of-stock `RegExp`
embedded as its `test` predicate. -/
structure Target where
  name : String
  urls : List String
  mustContainAny : List String
  outOfStockRegex : List (String → Bool)

/-- Result of one `fetchUrl` call: `{ html: string | null; status: number }`. -/
abbrev FetchResult := Option String × Int

/-- Fetch behaviour for one `probeTarget` run: each URL is fetched at most
twice (the first read and the delayed confirm read), so the behaviour assigns
to each URL the pair of results those two reads would return. -/
abbrev FetchBeh := String → FetchResult × FetchResult

/-- JS `http_${status || 'error'}` — status 0 is falsy and prints as "error". -/
def httpReason (pre : String) (status : Int) : String :=
  if status = 0 then pre ++ "error" else pre ++ toString status

/-- The URL loop of `probeTarget` (monitor.ts lines 279-333), threading
`lastReason` and `lastUsedUrl`, and additionally counting the `fetchUrl`
calls performed.  `confirmDelayMs` only delays; it does not affect results. -/
def probeLoop (t : Target) (beh : FetchBeh) :
    List String → String → Option String → Nat → ProbeResult × Nat
  | [], lastReason, lastUsedUrl, fetches =>
      ({ ok := false, status := .ERROR, usedUrl := lastUsedUrl, reason := lastReason }, fetches)
  | url :: rest, _, _, fetches =>
      let first := (beh url).1
      match first.1 with
      | none => probeLoop t beh rest (httpReason "http_" first.2) (some url) (fetches + 1)
      | some html =>
          if !sanityOk html t.mustContainAny then
            probeLoop t beh rest ("sanity_failed@" ++ url) (some url) (fetches + 1)
          else if matchAnyRegex html t.outOfStockRegex then
            ({ ok := true, status := .OUT, usedUrl := some url,
               reason := "out_of_stock_keyword" }, fetches + 1)
          else
            let second := (beh url).2
            match second.1 with
            | none =>
                probeLoop t beh rest (httpReason "confirm_http_" second.2) (some url) (fetches + 2)
            | some html2 =>
                if !sanityOk html2 t.mustContainAny then
                  probeLoop t beh rest ("confirm_sanity_failed@" ++ url) (some url) (fetches + 2)
                else if matchAnyRegex html2 t.outOfStockRegex then
                  ({ ok := true, status := .OUT, usedUrl := some url,
                     reason := "flap_back_to_out" }, fetches + 2)
                else
                  ({ ok := true, status := .IN, usedUrl := some url,
                     reason := "confirmed_in_stock" }, fetches + 2)

/-- `probeTarget` (monitor.ts lines 271-341): run the URL loop from the
initial `lastReason = 'fetch_failed'`, `lastUsedUrl = null`; the second
component counts the fetches performed. -/
def probeTarget (t : Target) (beh : FetchBeh) : ProbeResult × Nat :=
  probeLoop t beh t.urls "fetch_failed" none 0

/-! ## Notification fan-out (notifiers.ts lines 251-281) -/

/-- Outcome of one notifier's `send` promise as observed by
`Promise.allSettled`. -/
inductive SendOutcome where
  | fulfilled
  | rejected (message : String)
deriving DecidableEq, Repr

/-- A configured notification channel: its class name (used in diagnostics)
and its `send(title, text)` capability, embedded as an outcome oracle. -/
structure Notifier where
  name : String
  send : String → String → SendOutcome

/-- `NotifyResult` from notifiers.ts. -/
structure NotifyResult where
  attempted : Nat
  sent : Nat
  failed : Nat
  errors : List String
deriving DecidableEq, Repr

/-- The `settled.forEach` accumulation of notifyAll (notifiers.ts lines
265-276): count fulfilled results and collect one `"<name>: <message>"`
string per rejected result, in order. -/
def tallySettled : List (String × SendOutcome) → Nat × List String
  | [] => (0, [])
  | (nm, o) :: rest =>
      let acc := tallySettled rest
      match o with
      | .fulfilled => (acc.1 + 1, acc.2)
      | .rejected message => (acc.1, (nm ++ ": " ++ message) :: acc.2)

/-- `notifyAll` (notifiers.ts lines 254-281): empty list short-circuits to
all-zero counts; otherwise every channel's send is dispatched and the settled
outcomes are aggregated. -/
def notifyAll (notifiers : List Notifier) (title text : String) : NotifyResult :=
  if notifiers.length = 0 then
    { attempted := 0, sent := 0, failed := 0, errors := [] }
  else
    let settled := notifiers.map fun n => (n.name, n.send title text)
    let acc := tallySettled settled
    { attempted := notifiers.length, sent := acc.1, failed := acc.2.length, errors := acc.2 }

/-! ## State persistence (state.ts lines 11-29) -/

/-- The value `JSON.parse` can produce.  The unchecked TypeScript cast
`parsed as State` reinterprets a non-array object as the state map, so the
object case carries the map it decodes to. -/
inductive JsValue where
  | null
  | bool (b : Bool)
  | num (n : Int)
  | str (s : String)
  | arr (elems : List JsValue)
  | obj (fields : StateMap)

/-- `loadState` (state.ts lines 11-23): `stored` is the KV `get` result
(`null` embedded as `none`), `parse` is the `JSON.parse` oracle (`none` when
it throws).  A falsy blob (absent or empty string), a parse failure, or a
parse to anything but a non-array object all yield the empty map. -/
def loadState (stored : Option String) (parse : String → Option JsValue) : StateMap :=
  match stored with
  | none => []
  | some s =>
      if s = "" then []
      else
        match parse s with
        | none => []
        | some v =>
            match v with
            | .obj fields => fields
            | _ => []

/-- `getStatus` (monitor.ts lines 512-514): `return await loadState(env)`. -/
def getStatus (stored : Option String) (parse : String → Option JsValue) : StateMap :=
  loadState stored parse

/-! ## Claim theorems -/

/-- C1: from prior persisted status OUT, an IN probe outcome increments
`inStreak` by 1; the status flips to IN exactly on a run where the incremented
streak reaches `inConfirmationsRequired`, and on that run `inSinceTs = now`,
exactly one restock alert is attempted with `lastInNotifyAttemptTs = now` and
`lastInNotifyOkTs` updated to `now` iff at least one channel succeeded, and the
OUT -> IN change event is emitted; below the threshold the status stays OUT,
no alert is attempted and no change event is emitted. -/
theorem claim_C1_out_to_in_confirmation
    (cfg : CheckConfig) (numNotifiers notifySent : Nat) (name : String)
    (prior : TargetState) (result : ProbeResult) (now : Int)
    (hprior : prior.status = .OUT) (hres : result.status = .IN) :
    (runTargetStep cfg numNotifiers notifySent name prior result now).state.inStreak
        = prior.inStreak + 1 ∧
    (prior.inStreak + 1 ≥ cfg.inConfirmationsRequired →
      (runTargetStep cfg numNotifiers notifySent name prior result now).state.status = .IN ∧
      (runTargetStep cfg numNotifiers notifySent name prior result now).state.inSinceTs = now ∧
      (runTargetStep cfg numNotifiers notifySent name prior result now).restockAlerts = 1 ∧
      (runTargetStep cfg numNotifiers notifySent name prior result now).state.lastInNotifyAttemptTs = now ∧
      (runTargetStep cfg numNotifiers notifySent name prior result now).state.lastInNotifyOkTs
          = (if notifySent > 0 then now else prior.lastInNotifyOkTs) ∧
      (runTargetStep cfg numNotifiers notifySent name prior result now).changes
          = [name ++ ": OUT -> IN (" ++ showUrl result.usedUrl ++ ")"]) ∧
    (prior.inStreak + 1 < cfg.inConfirmationsRequired →
      (runTargetStep cfg numNotifiers notifySent name prior result now).state.status = .OUT ∧
      (runTargetStep cfg numNotifiers notifySent name prior result now).restockAlerts = 0 ∧
      (runTargetStep cfg numNotifiers notifySent name prior result now).changes = []) := by
  simp only [runTargetStep, hres, hprior]
  by_cases h : prior.inStreak + 1 ≥ cfg.inConfirmationsRequired
  · simp [h]
  · simp [h]

/-- Witness for C1 at a concrete input: threshold 1, prior OUT with zero
streak, IN probe, one channel succeeding. -/
theorem claim_C1_out_to_in_confirmation_witness :
    (runTargetStep ⟨1, 5, 1800⟩ 1 1 "X" ⟨.OUT, 0, 0, 0, 0, 0, 0, none, "", 0⟩
        ⟨true, .IN, some "u", "confirmed_in_stock"⟩ 100).state.status = .IN ∧
    (runTargetStep ⟨1, 5, 1800⟩ 1 1 "X" ⟨.OUT, 0, 0, 0, 0, 0, 0, none, "", 0⟩
        ⟨true, .IN, some "u", "confirmed_in_stock"⟩ 100).restockAlerts = 1 ∧
    (runTargetStep ⟨1, 5, 1800⟩ 1 1 "X" ⟨.OUT, 0, 0, 0, 0, 0, 0, none, "", 0⟩
        ⟨true, .IN, some "u", "confirmed_in_stock"⟩ 100).changes
      = ["X: OUT -> IN (u)"] :=
  have h := claim_C1_out_to_in_confirmation ⟨1, 5, 1800⟩ 1 1 "X"
      ⟨.OUT, 0, 0, 0, 0, 0, 0, none, "", 0⟩
      ⟨true, .IN, some "u", "confirmed_in_stock"⟩ 100 rfl rfl
  ⟨(h.2.1 (by decide)).1, (h.2.1 (by decide)).2.2.1, (h.2.1 (by decide)).2.2.2.2.2⟩

/-- C2 counterexample: prior status OUT with `inStreak = 1`; an ERROR probe
outcome leaves `inStreak` at 1 — it is not reset to 0 as the claim states. -/
theorem claim_C2_error_resets_instreak_cex :
    (⟨.OUT, 0, 1, 0, 0, 0, 0, none, "", 0⟩ : TargetState).status = .OUT ∧
    (⟨false, .ERROR, none, "http_error"⟩ : ProbeResult).status = .ERROR ∧
    ¬ (runTargetStep ⟨2, 5, 1800⟩ 0 0 "X" ⟨.OUT, 0, 1, 0, 0, 0, 0, none, "", 0⟩
        ⟨false, .ERROR, none, "http_error"⟩ 100).state.inStreak = 0 := by
  refine ⟨rfl, rfl, ?_⟩
  decide

/-- C2 amended: for every target whose persisted status is OUT, applying an
ERROR probe outcome leaves `inStreak` unchanged (the reset to 0 happens only
on an OUT probe outcome). -/
theorem claim_C2_error_preserves_instreak
    (cfg : CheckConfig) (numNotifiers notifySent : Nat) (name : String)
    (prior : TargetState) (result : ProbeResult) (now : Int)
    (_hprior : prior.status = .OUT) (hres : result.status = .ERROR) :
    (runTargetStep cfg numNotifiers notifySent name prior result now).state.inStreak
      = prior.inStreak := by
  simp only [runTargetStep, hres]
  by_cases h : prior.errStreak + 1 ≥ cfg.errorStreakNotifyThreshold ∧
      now - prior.lastErrNotifyTs ≥ cfg.errorNotifyCooldownSec
  · simp [h]
  · simp [h]

/-- Witness for the amended C2 at a concrete input. -/
theorem claim_C2_error_preserves_instreak_witness :
    (runTargetStep ⟨2, 5, 1800⟩ 0 0 "X" ⟨.OUT, 0, 1, 0, 0, 0, 0, none, "", 0⟩
        ⟨false, .ERROR, none, "http_error"⟩ 100).state.inStreak = 1 :=
  claim_C2_error_preserves_instreak ⟨2, 5, 1800⟩ 0 0 "X"
    ⟨.OUT, 0, 1, 0, 0, 0, 0, none, "", 0⟩
    ⟨false, .ERROR, none, "http_error"⟩ 100 rfl rfl

/-- C5: an OUT probe outcome zeroes `errStreak`, `inStreak` and `inSinceTs`
and sets status OUT unconditionally; the IN -> OUT change event is emitted iff
the prior status was IN, so applying OUT to an already-OUT state emits no
change event and leaves the status OUT. -/
theorem claim_C5_out_outcome
    (cfg : CheckConfig) (numNotifiers notifySent : Nat) (name : String)
    (prior : TargetState) (result : ProbeResult) (now : Int)
    (hres : result.status = .OUT) :
    (runTargetStep cfg numNotifiers notifySent name prior result now).state.errStreak = 0 ∧
    (runTargetStep cfg numNotifiers notifySent name prior result now).state.inStreak = 0 ∧
    (runTargetStep cfg numNotifiers notifySent name prior result now).state.inSinceTs = 0 ∧
    (runTargetStep cfg numNotifiers notifySent name prior result now).state.status = .OUT ∧
    (runTargetStep cfg numNotifiers notifySent name prior result now).restockAlerts = 0 ∧
    (runTargetStep cfg numNotifiers notifySent name prior result now).errorAlerts = 0 ∧
    (prior.status = .IN →
      (runTargetStep cfg numNotifiers notifySent name prior result now).changes
        = [name ++ ": IN -> OUT (" ++ showUrl result.usedUrl ++ ")"]) ∧
    (prior.status = .OUT →
      (runTargetStep cfg numNotifiers notifySent name prior result now).changes = []) := by
  simp only [runTargetStep, hres]
  cases hp : prior.status <;> simp [hp]

/-- Witness for C5 at a concrete input: prior status IN, OUT probe. -/
theorem claim_C5_out_outcome_witness :
    (runTargetStep ⟨2, 5, 1800⟩ 1 0 "X" ⟨.IN, 50, 3, 0, 0, 50, 50, some "u", "r", 50⟩
        ⟨true, .OUT, some "u", "out_of_stock_keyword"⟩ 100).state.status = .OUT ∧
    (runTargetStep ⟨2, 5, 1800⟩ 1 0 "X" ⟨.IN, 50, 3, 0, 0, 50, 50, some "u", "r", 50⟩
        ⟨true, .OUT, some "u", "out_of_stock_keyword"⟩ 100).changes
      = ["X: IN -> OUT (u)"] :=
  have h := claim_C5_out_outcome ⟨2, 5, 1800⟩ 1 0 "X"
      ⟨.IN, 50, 3, 0, 0, 50, 50, some "u", "r", 50⟩
      ⟨true, .OUT, some "u", "out_of_stock_keyword"⟩ 100 rfl
  ⟨h.2.2.2.1, h.2.2.2.2.2.2.1 rfl⟩

/-- C7: an ERROR probe outcome leaves the status unchanged, increments
`errStreak` by exactly 1 and emits no change event; an error alert is
attempted iff the incremented streak reaches `errorStreakNotifyThreshold` and
the cooldown has elapsed, and `lastErrNotifyTs` is updated to `now` iff such
an alert is attempted and at least one channel accepts it. -/
theorem claim_C7_error_outcome
    (cfg : CheckConfig) (numNotifiers notifySent : Nat) (name : String)
    (prior : TargetState) (result : ProbeResult) (now : Int)
    (hres : result.status = .ERROR) :
    (runTargetStep cfg numNotifiers notifySent name prior result now).state.status
      = prior.status ∧
    (runTargetStep cfg numNotifiers notifySent name prior result now).state.errStreak
      = prior.errStreak + 1 ∧
    (runTargetStep cfg numNotifiers notifySent name prior result now).changes = [] ∧
    ((runTargetStep cfg numNotifiers notifySent name prior result now).errorAlerts = 1 ↔
      (prior.errStreak + 1 ≥ cfg.errorStreakNotifyThreshold ∧
       now - prior.lastErrNotifyTs ≥ cfg.errorNotifyCooldownSec)) ∧
    (runTargetStep cfg numNotifiers notifySent name prior result now).state.lastErrNotifyTs
      = (if (prior.errStreak + 1 ≥ cfg.errorStreakNotifyThreshold ∧
             now - prior.lastErrNotifyTs ≥ cfg.errorNotifyCooldownSec) ∧ notifySent > 0
         then now else prior.lastErrNotifyTs) := by
  simp only [runTargetStep, hres]
  by_cases h : prior.errStreak + 1 ≥ cfg.errorStreakNotifyThreshold ∧
      now - prior.lastErrNotifyTs ≥ cfg.errorNotifyCooldownSec
  · by_cases hs : notifySent > 0 <;> simp [h, hs]
  · simp [h]

/-- Witness for C7 at a concrete input matching spec Scenario D: prior
`errStreak = 4`, threshold 5, cooldown elapsed, one channel accepting. -/
theorem claim_C7_error_outcome_witness :
    (runTargetStep ⟨2, 5, 1800⟩ 1 1 "X" ⟨.OUT, 0, 0, 4, 0, 0, 0, none, "", 0⟩
        ⟨false, .ERROR, none, "http_403"⟩ 2000).state.errStreak = 4 + 1 ∧
    (runTargetStep ⟨2, 5, 1800⟩ 1 1 "X" ⟨.OUT, 0, 0, 4, 0, 0, 0, none, "", 0⟩
        ⟨false, .ERROR, none, "http_403"⟩ 2000).state.lastErrNotifyTs
      = (if ((4:Int) + 1 ≥ 5 ∧ (2000:Int) - 0 ≥ 1800) ∧ (1:Nat) > 0 then 2000 else 0) :=
  have h := claim_C7_error_outcome ⟨2, 5, 1800⟩ 1 1 "X"
      ⟨.OUT, 0, 0, 4, 0, 0, 0, none, "", 0⟩
      ⟨false, .ERROR, none, "http_403"⟩ 2000 rfl
  ⟨h.2.1, h.2.2.2.2⟩

/-- Helper: while IN with the restock alert already delivered for the current
IN period (`lastInNotifyOkTs ≥ inSinceTs`), an IN probe makes no restock
notification call and preserves the status, `lastInNotifyOkTs` and
`inSinceTs`. -/
theorem runTargetStep_in_in_no_retry
    (cfg : CheckConfig) (numNotifiers notifySent : Nat) (name : String)
    (prior : TargetState) (result : ProbeResult) (now : Int)
    (hprior : prior.status = .IN) (hres : result.status = .IN)
    (hok : prior.lastInNotifyOkTs ≥ prior.inSinceTs) :
    (runTargetStep cfg numNotifiers notifySent name prior result now).restockAlerts = 0 ∧
    (runTargetStep cfg numNotifiers notifySent name prior result now).state.status = .IN ∧
    (runTargetStep cfg numNotifiers notifySent name prior result now).state.lastInNotifyOkTs
      = prior.lastInNotifyOkTs ∧
    (runTargetStep cfg numNotifiers notifySent name prior result now).state.inSinceTs
      = prior.inSinceTs := by
  have hcond : ¬ (numNotifiers > 0 ∧ prior.lastInNotifyOkTs < prior.inSinceTs) :=
    fun hc => absurd hc.2 (not_lt.mpr hok)
  simp only [runTargetStep, hres, hprior]
  simp [hcond]

/-- Helper: over any sequence of runs that all probe IN, a target that starts
IN with its restock alert already delivered for the current IN period makes no
restock notification call on any run of the sequence. -/
theorem runTargetSeq_no_alerts
    (cfg : CheckConfig) (numNotifiers : Nat) (name : String) :
    ∀ (inputs : List RunInput) (prior : TargetState),
      prior.status = .IN →
      prior.lastInNotifyOkTs ≥ prior.inSinceTs →
      (∀ i ∈ inputs, i.result.status = .IN) →
      (runTargetSeq cfg numNotifiers name prior inputs).2 = 0
  | [], _, _, _, _ => rfl
  | i :: rest, prior, hp, hok, hall => by
      have hstep := runTargetStep_in_in_no_retry cfg numNotifiers i.notifySent name
        prior i.result i.now hp (hall i (List.mem_cons_self i rest)) hok
      have hrest := runTargetSeq_no_alerts cfg numNotifiers name rest
        (runTargetStep cfg numNotifiers i.notifySent name prior i.result i.now).state
        hstep.2.1 (hstep.2.2.1 ▸ hstep.2.2.2 ▸ hok)
        (fun j hj => hall j (List.mem_cons_of_mem i hj))
      simp only [runTargetSeq]
      omega

/-- C6: while the status is IN and a channel is configured, a run probing IN
with `lastInNotifyOkTs < inSinceTs` re-attempts the restock alert (updating
`lastInNotifyAttemptTs` to now and `lastInNotifyOkTs` to now iff a channel
succeeded); and once `lastInNotifyOkTs ≥ inSinceTs`, no restock alert is ever
attempted again across any sequence of subsequent runs that still probe IN. -/
theorem claim_C6_restock_retry_law :
    (∀ (cfg : CheckConfig) (numNotifiers notifySent : Nat) (name : String)
        (prior : TargetState) (result : ProbeResult) (now : Int),
      prior.status = .IN → result.status = .IN → numNotifiers > 0 →
      prior.lastInNotifyOkTs < prior.inSinceTs →
      (runTargetStep cfg numNotifiers notifySent name prior result now).restockAlerts = 1 ∧
      (runTargetStep cfg numNotifiers notifySent name prior result now).state.lastInNotifyAttemptTs = now ∧
      (runTargetStep cfg numNotifiers notifySent name prior result now).state.lastInNotifyOkTs
        = (if notifySent > 0 then now else prior.lastInNotifyOkTs)) ∧
    (∀ (cfg : CheckConfig) (numNotifiers : Nat) (name : String)
        (prior : TargetState) (inputs : List RunInput),
      prior.status = .IN →
      prior.lastInNotifyOkTs ≥ prior.inSinceTs →
      (∀ i ∈ inputs, i.result.status = .IN) →
      (runTargetSeq cfg numNotifiers name prior inputs).2 = 0) := by
  constructor
  · intro cfg numNotifiers notifySent name prior result now hp hres hn hlt
    simp only [runTargetStep, hres, hp]
    have hcond : numNotifiers > 0 ∧ prior.lastInNotifyOkTs < prior.inSinceTs := ⟨hn, hlt⟩
    simp [hcond]
  · exact fun cfg numNotifiers name prior inputs =>
      runTargetSeq_no_alerts cfg numNotifiers name inputs prior

/-- Witness for C6: a concrete failed-alert state retries once, and a
concrete already-delivered state makes no alert over a two-run IN sequence. -/
theorem claim_C6_restock_retry_law_witness :
    (runTargetStep ⟨2, 5, 1800⟩ 1 1 "X" ⟨.IN, 50, 2, 0, 0, 50, 0, some "u", "r", 50⟩
        ⟨true, .IN, some "u", "confirmed_in_stock"⟩ 100).restockAlerts = 1 ∧
    (runTargetSeq ⟨2, 5, 1800⟩ 1 "X" ⟨.IN, 50, 2, 0, 0, 50, 50, some "u", "r", 50⟩
        [⟨⟨true, .IN, some "u", "confirmed_in_stock"⟩, 1, 200⟩,
         ⟨⟨true, .IN, some "u", "confirmed_in_stock"⟩, 1, 300⟩]).2 = 0 :=
  ⟨(claim_C6_restock_retry_law.1 ⟨2, 5, 1800⟩ 1 1 "X"
      ⟨.IN, 50, 2, 0, 0, 50, 0, some "u", "r", 50⟩
      ⟨true, .IN, some "u", "confirmed_in_stock"⟩ 100 rfl rfl (by decide) (by decide)).1,
   claim_C6_restock_retry_law.2 ⟨2, 5, 1800⟩ 1 "X"
      ⟨.IN, 50, 2, 0, 0, 50, 50, some "u", "r", 50⟩
      [⟨⟨true, .IN, some "u", "confirmed_in_stock"⟩, 1, 200⟩,
       ⟨⟨true, .IN, some "u", "confirmed_in_stock"⟩, 1, 300⟩]
      rfl (by decide)
      (by
        intro i hi
        simp only [List.mem_cons, List.mem_singleton, List.not_mem_nil, or_false] at hi
        rcases hi with rfl | rfl <;> rfl)⟩

/-- Helper: JS object assignment at one key does not change lookups at any
other key. -/
theorem lookup_setEntry_ne (m : StateMap) (k other : String) (v : TargetState)
    (h : other ≠ k) : (setEntry m k v).lookup other = m.lookup other := by
  induction m with
  | nil => simp [setEntry, List.lookup, beq_eq_false_iff_ne.mpr h]
  | cons p rest ih =>
      obtain ⟨k', v'⟩ := p
      by_cases hk : k' = k
      · subst hk
        simp [setEntry, List.lookup, beq_eq_false_iff_ne.mpr h]
      · simp [setEntry, hk, List.lookup, ih]

/-- C3 counterexample: with active target list `["A"]` and a loaded state map
holding an entry for the absent name `"B"`, the snapshot `runCheck` passes to
`saveState` still contains the `"B"` entry. -/
theorem claim_C3_pruning_cex :
    "B" ∉ ["A"] ∧
    ((runCheckState ⟨2, 5, 1800⟩ 0 (fun _ => ⟨true, .OUT, some "u", "out_of_stock_keyword"⟩)
        (fun _ => 0) 100 ["A"] [("B", defaultTargetState)]).1).lookup "B"
      = some defaultTargetState := by
  constructor
  · decide
  · rfl

/-- C3 amended: `runCheck` performs no pruning — an entry of the loaded state
map whose name is not in the current target list is carried into the persisted
snapshot unchanged. -/
theorem claim_C3_stale_entries_carried_over
    (cfg : CheckConfig) (numNotifiers : Nat) (probe : String → ProbeResult)
    (notifySentOf : String → Nat) (now : Int) :
    ∀ (targets : List String) (state : StateMap) (name : String),
      name ∉ targets →
      ((runCheckState cfg numNotifiers probe notifySentOf now targets state).1).lookup name
        = state.lookup name := by
  intro targets
  induction targets with
  | nil => intro state name _; rfl
  | cons t rest ih =>
      intro state name hmem
      have hne : name ≠ t := fun h => hmem (h ▸ List.mem_cons_self t rest)
      have hrest : name ∉ rest := fun h => hmem (List.mem_cons_of_mem t h)
      simp only [runCheckState]
      rw [ih _ name hrest, lookup_setEntry_ne _ _ _ _ hne]

/-- Witness for the amended C3 at the counterexample's concrete input. -/
theorem claim_C3_stale_entries_carried_over_witness :
    ((runCheckState ⟨2, 5, 1800⟩ 0 (fun _ => ⟨true, .OUT, some "u", "out_of_stock_keyword"⟩)
        (fun _ => 0) 100 ["A"] [("B", defaultTargetState)]).1).lookup "B"
      = ([("B", defaultTargetState)] : StateMap).lookup "B" :=
  claim_C3_stale_entries_carried_over ⟨2, 5, 1800⟩ 0
    (fun _ => ⟨true, .OUT, some "u", "out_of_stock_keyword"⟩) (fun _ => 0) 100
    ["A"] [("B", defaultTargetState)] "B" (by decide)

/-- The `name` fields of the default `TARGETS` list (monitor.ts lines 16-38),
the currently-configured target names when `TARGETS_JSON` is unset. -/
def defaultTargetNames : List String :=
  ["BandwagonHost MegaBox Pro (pid=157)", "DMIT LAX.Pro.MALIBU (pid=186)"]

/-- C4 counterexample: a persisted blob holding only an entry for the
unconfigured name `"stale"` is returned by `getStatus` as-is — the stale entry
is present and no zero-valued default is synthesized for the configured
target `"BandwagonHost MegaBox Pro (pid=157)"`. -/
theorem claim_C4_getstatus_cex :
    "stale" ∉ defaultTargetNames ∧
    "BandwagonHost MegaBox Pro (pid=157)" ∈ defaultTargetNames ∧
    (getStatus (some "blob")
        (fun _ => some (.obj [("stale", defaultTargetState)]))).lookup "stale"
      = some defaultTargetState ∧
    (getStatus (some "blob")
        (fun _ => some (.obj [("stale", defaultTargetState)]))).lookup
        "BandwagonHost MegaBox Pro (pid=157)" = none := by
  refine ⟨by decide, by decide, rfl, rfl⟩

/-- C4 amended: `getStatus` returns the persisted state map exactly as
`loadState` loads it — a blob parsing to a non-array object yields that
object's map unchanged, with no filtering to configured names and no
synthesized defaults. -/
theorem claim_C4_getstatus_unfiltered
    (s : String) (parse : String → Option JsValue) (m : StateMap)
    (hs : s ≠ "") (hp : parse s = some (.obj m)) :
    getStatus (some s) parse = m ∧ getStatus (some s) parse = loadState (some s) parse := by
  refine ⟨?_, rfl⟩
  simp [getStatus, loadState, hs, hp]

/-- Witness for the amended C4 at a concrete input. -/
theorem claim_C4_getstatus_unfiltered_witness :
    getStatus (some "blob") (fun _ => some (.obj [("stale", defaultTargetState)]))
      = [("stale", defaultTargetState)] :=
  (claim_C4_getstatus_unfiltered "blob"
    (fun _ => some (.obj [("stale", defaultTargetState)]))
    [("stale", defaultTargetState)] (by decide) rfl).1

/-- C10: `loadState` (and hence `getStatus`) never fails on a missing or
malformed persisted blob: an absent value, a value `JSON.parse` rejects, and a
value parsing to anything other than a non-array object all yield the empty
state map, silently discarding the corrupt snapshot. -/
theorem claim_C10_loadstate_resilient :
    (∀ parse, loadState none parse = []) ∧
    (∀ (s : String) (parse : String → Option JsValue),
      parse s = none → loadState (some s) parse = []) ∧
    (∀ (s : String) (parse : String → Option JsValue) (v : JsValue),
      parse s = some v → (∀ fields, v ≠ .obj fields) → loadState (some s) parse = []) ∧
    (∀ stored parse, getStatus stored parse = loadState stored parse) := by
  refine ⟨fun _ => rfl, ?_, ?_, fun _ _ => rfl⟩
  · intro s parse hp
    by_cases hs : s = "" <;> simp [loadState, hs, hp]
  · intro s parse v hp hno
    by_cases hs : s = ""
    · simp [loadState, hs]
    · cases v with
      | obj fields => exact absurd rfl (hno fields)
      | null => simp [loadState, hs, hp]
      | bool b => simp [loadState, hs, hp]
      | num n => simp [loadState, hs, hp]
      | str s' => simp [loadState, hs, hp]
      | arr elems => simp [loadState, hs, hp]

/-- Witness for C10 at concrete inputs: a blob the parser rejects and a blob
parsing to an array both load as the empty map. -/
theorem claim_C10_loadstate_resilient_witness :
    loadState (some "not json") (fun _ => none) = [] ∧
    loadState (some "[1]") (fun _ => some (.arr [.num 1])) = [] :=
  ⟨claim_C10_loadstate_resilient.2.1 "not json" (fun _ => none) rfl,
   claim_C10_loadstate_resilient.2.2.1 "[1]" (fun _ => some (.arr [.num 1]))
     (.arr [.num 1]) rfl (fun fields h => by simp at h)⟩

/-- Helper: whenever the URL loop returns outcome IN, some URL of the list had
both its first read and its confirm read return a body that passed the sanity
check and matched no out-of-stock pattern, the reason is
`confirmed_in_stock`, and that URL is reported as `usedUrl`. -/
theorem probeLoop_in_sound (t : Target) (beh : FetchBeh) :
    ∀ (urls : List String) (lastReason : String) (lastUsedUrl : Option String) (fetches : Nat),
      (probeLoop t beh urls lastReason lastUsedUrl fetches).1.status = .IN →
      (probeLoop t beh urls lastReason lastUsedUrl fetches).1.reason = "confirmed_in_stock" ∧
      ∃ url ∈ urls,
        (probeLoop t beh urls lastReason lastUsedUrl fetches).1.usedUrl = some url ∧
        ∃ h1 h2, ((beh url).1).1 = some h1 ∧ sanityOk h1 t.mustContainAny = true ∧
          matchAnyRegex h1 t.outOfStockRegex = false ∧
          ((beh url).2).1 = some h2 ∧ sanityOk h2 t.mustContainAny = true ∧
          matchAnyRegex h2 t.outOfStockRegex = false
  | [], lastReason, lastUsedUrl, fetches => by
      intro h
      exact absurd h (by simp [probeLoop])
  | url :: rest, lastReason, lastUsedUrl, fetches => by
      intro h
      simp only [probeLoop] at h ⊢
      cases hfb : ((beh url).1).1 with
      | none =>
          simp only [hfb] at h ⊢
          obtain ⟨hr, u, hu, hrest⟩ := probeLoop_in_sound t beh rest _ _ _ h
          exact ⟨hr, u, List.mem_cons_of_mem url hu, hrest⟩
      | some html =>
          simp only [hfb] at h ⊢
          by_cases hsan : sanityOk html t.mustContainAny
          · simp only [hsan, Bool.not_true, Bool.false_eq_true, if_false] at h ⊢
            by_cases hm : matchAnyRegex html t.outOfStockRegex
            · simp only [hm, if_true] at h
              exact absurd h (by simp)
            · simp only [hm, Bool.false_eq_true, if_false] at h ⊢
              cases hfb2 : ((beh url).2).1 with
              | none =>
                  simp only [hfb2] at h ⊢
                  obtain ⟨hr, u, hu, hrest⟩ := probeLoop_in_sound t beh rest _ _ _ h
                  exact ⟨hr, u, List.mem_cons_of_mem url hu, hrest⟩
              | some html2 =>
                  simp only [hfb2] at h ⊢
                  by_cases hsan2 : sanityOk html2 t.mustContainAny
                  · simp only [hsan2, Bool.not_true, Bool.false_eq_true, if_false] at h ⊢
                    by_cases hm2 : matchAnyRegex html2 t.outOfStockRegex
                    · simp only [hm2, if_true] at h
                      exact absurd h (by simp)
                    · simp only [hm2, Bool.false_eq_true, if_false]
                      exact ⟨by trivial, url, List.mem_cons_self url rest, by trivial,
                        html, html2, hfb, by simp [hsan], by simp [hm],
                        hfb2, by simp [hsan2], by simp [hm2]⟩
                  · simp only [hsan2, Bool.not_false, if_true] at h ⊢
                    obtain ⟨hr, u, hu, hrest⟩ := probeLoop_in_sound t beh rest _ _ _ h
                    exact ⟨hr, u, List.mem_cons_of_mem url hu, hrest⟩
          · simp only [hsan, Bool.not_false, if_true] at h ⊢
            obtain ⟨hr, u, hu, hrest⟩ := probeLoop_in_sound t beh rest _ _ _ h
            exact ⟨hr, u, List.mem_cons_of_mem url hu, hrest⟩

/-- Helper: a first read whose body passes sanity and matches an out-of-stock
pattern makes the URL loop return OUT with reason `out_of_stock_keyword`
having performed exactly one more fetch — no confirm read of that URL. -/
theorem probeLoop_out_immediate (t : Target) (beh : FetchBeh)
    (url : String) (rest : List String) (lastReason : String)
    (lastUsedUrl : Option String) (fetches : Nat) (html : String)
    (hfb : ((beh url).1).1 = some html)
    (hsan : sanityOk html t.mustContainAny = true)
    (hm : matchAnyRegex html t.outOfStockRegex = true) :
    probeLoop t beh (url :: rest) lastReason lastUsedUrl fetches
      = ({ ok := true, status := .OUT, usedUrl := some url,
           reason := "out_of_stock_keyword" }, fetches + 1) := by
  simp [probeLoop, hfb, hsan, hm]

/-- C8: `probeTarget` returns outcome IN only when some URL of the target had
both its first read and its delayed confirm read return a body that passes the
case-insensitive `mustContainAny` sanity check and matches none of the
`outOfStockRegex` patterns, with reason `confirmed_in_stock`; and a first read
that passes sanity but matches an out-of-stock pattern returns OUT with reason
`out_of_stock_keyword` immediately, with no second fetch of that URL. -/
theorem claim_C8_probe_confirmation :
    (∀ (t : Target) (beh : FetchBeh),
      (probeTarget t beh).1.status = .IN →
      (probeTarget t beh).1.reason = "confirmed_in_stock" ∧
      ∃ url ∈ t.urls,
        (probeTarget t beh).1.usedUrl = some url ∧
        ∃ h1 h2, ((beh url).1).1 = some h1 ∧ sanityOk h1 t.mustContainAny = true ∧
          matchAnyRegex h1 t.outOfStockRegex = false ∧
          ((beh url).2).1 = some h2 ∧ sanityOk h2 t.mustContainAny = true ∧
          matchAnyRegex h2 t.outOfStockRegex = false) ∧
    (∀ (t : Target) (beh : FetchBeh) (url : String) (rest : List String)
        (lastReason : String) (lastUsedUrl : Option String) (fetches : Nat) (html : String),
      ((beh url).1).1 = some html →
      sanityOk html t.mustContainAny = true →
      matchAnyRegex html t.outOfStockRegex = true →
      probeLoop t beh (url :: rest) lastReason lastUsedUrl fetches
        = ({ ok := true, status := .OUT, usedUrl := some url,
             reason := "out_of_stock_keyword" }, fetches + 1)) :=
  ⟨fun t beh h => probeLoop_in_sound t beh t.urls "fetch_failed" none 0 h,
   fun t beh url rest lastReason lastUsedUrl fetches html hfb hsan hm =>
     probeLoop_out_immediate t beh url rest lastReason lastUsedUrl fetches html hfb hsan hm⟩

/-- Witness for C8: a concrete in-stock run (two clean reads of one URL) and a
concrete first-read out-of-stock match returning after a single fetch. -/
theorem claim_C8_probe_confirmation_witness :
    (probeTarget ⟨"T", ["u1"], ["shop"], [fun h => containsSub "out".toList h.toList]⟩
        (fun _ => ((some "My Shop page", 200), (some "my shop again", 200)))).1.reason
      = "confirmed_in_stock" ∧
    probeLoop ⟨"T", ["u1"], ["shop"], [fun h => containsSub "out".toList h.toList]⟩
        (fun _ => ((some "Shop out", 200), (some "x", 200))) ["u1"] "fetch_failed" none 0
      = ({ ok := true, status := .OUT, usedUrl := some "u1",
           reason := "out_of_stock_keyword" }, 0 + 1) :=
  ⟨(claim_C8_probe_confirmation.1
      ⟨"T", ["u1"], ["shop"], [fun h => containsSub "out".toList h.toList]⟩
      (fun _ => ((some "My Shop page", 200), (some "my shop again", 200))) (by decide)).1,
   claim_C8_probe_confirmation.2
      ⟨"T", ["u1"], ["shop"], [fun h => containsSub "out".toList h.toList]⟩
      (fun _ => ((some "Shop out", 200), (some "x", 200))) "u1" [] "fetch_failed" none 0
      "Shop out" rfl (by decide) (by decide)⟩

/-- Helper: the settled-outcome tally accounts for every element — fulfilled
count plus error count equals the number of settled promises. -/
theorem tallySettled_total (l : List (String × SendOutcome)) :
    (tallySettled l).1 + (tallySettled l).2.length = l.length := by
  induction l with
  | nil => rfl
  | cons p rest ih =>
      obtain ⟨nm, o⟩ := p
      cases o <;> simp only [tallySettled, List.length_cons] <;> omega

/-- Helper: the tally collects exactly one `"<name>: <message>"` string per
rejected outcome, in order. -/
theorem tallySettled_errors (l : List (String × SendOutcome)) :
    (tallySettled l).2 = l.filterMap fun p =>
      match p.2 with
      | .fulfilled => none
      | .rejected message => some (p.1 ++ ": " ++ message) := by
  induction l with
  | nil => rfl
  | cons p rest ih =>
      obtain ⟨nm, o⟩ := p
      cases o <;> simp [tallySettled, List.filterMap_cons, ih]

/-- C9: `notifyAll` reports one attempt per channel no matter which channels
fail, with `sent + failed = attempted`, `failed` equal to the number of error
strings, and exactly one `"<channel>: <error>"` string per failed channel;
the empty channel list yields all-zero counts and no errors. -/
theorem claim_C9_notifyAll_fanout (notifiers : List Notifier) (title text : String) :
    (notifyAll notifiers title text).attempted = notifiers.length ∧
    (notifyAll notifiers title text).sent + (notifyAll notifiers title text).failed
      = (notifyAll notifiers title text).attempted ∧
    (notifyAll notifiers title text).failed
      = (notifyAll notifiers title text).errors.length ∧
    (notifyAll notifiers title text).errors
      = notifiers.filterMap (fun n =>
          match n.send title text with
          | .fulfilled => none
          | .rejected message => some (n.name ++ ": " ++ message)) ∧
    notifyAll [] title text = { attempted := 0, sent := 0, failed := 0, errors := [] } := by
  cases notifiers with
  | nil => exact ⟨rfl, rfl, rfl, rfl, rfl⟩
  | cons n rest =>
      have hlen : (n :: rest).length ≠ 0 := by simp
      refine ⟨?_, ?_, ?_, ?_, rfl⟩
      · simp [notifyAll, hlen]
      · simp only [notifyAll, hlen, if_neg hlen]
        have := tallySettled_total ((n :: rest).map fun m => (m.name, m.send title text))
        simpa using this
      · simp [notifyAll, hlen]
      · simp only [notifyAll, hlen, if_neg hlen]
        rw [tallySettled_errors, List.filterMap_map]
        rfl

end RestockMonitor
